import Mathlib

/-!
Shallow embedding of the 2D ball physics engine.

The source is a small JavaScript simulation: circular bodies ("balls") fall
under gravity, experience per-axis quadratic drag, bounce off rectangular
boundaries, and collide with each other via impulse resolution.

JavaScript numbers are modelled as real numbers.  `Math.sqrt` is `Real.sqrt`,
`Math.PI` is `Real.pi`, `Math.abs` is `|·|`, `Math.sign` is `mathSign` below.
The `color` field of a ball (a render-only string) is omitted, as is the
`timestamp` field of the physics state (debug-only).
-/

/-- A ball, as built by `createBall` in the source:
position in pixels, velocity in m/s, radius both in meters (`radiusM`)
and in pixels (`radius`), mass in kg. -/
structure Ball where
  x : ℝ
  y : ℝ
  radiusM : ℝ
  radius : ℝ
  vx : ℝ
  vy : ℝ
  mass : ℝ

/-- The physics settings passed around each frame (`createPhysicsState` plus
the `deltaTime` field attached by the main loop). -/
structure PhysicsState where
  gravity : ℝ
  friction : ℝ
  drag : ℝ
  deltaTime : ℝ

/-- Canvas width/height in pixels. -/
structure CanvasBounds where
  width : ℝ
  height : ℝ

/-- PHYSICS_CONFIG.METER: 1 meter = 100 pixels. -/
noncomputable def METER : ℝ := 100

/-- PHYSICS_CONFIG.RESTITUTION_WALL_FLOOR. -/
noncomputable def RESTITUTION_WALL_FLOOR : ℝ := 0.7

/-- PHYSICS_CONFIG.RESTITUTION_BALL_BALL. -/
noncomputable def RESTITUTION_BALL_BALL : ℝ := 0.9

/-- PHYSICS_CONFIG.FLUID_DENSITY (air, kg/m³). -/
noncomputable def FLUID_DENSITY : ℝ := 1.225

/-- JavaScript `Math.sign`. -/
noncomputable def mathSign (x : ℝ) : ℝ :=
  if 0 < x then 1 else if x < 0 then -1 else 0

/-- Embeds `createBall(initialX, initialY, radiusM, mass)` from the source.
`rand` stands for the `Math.random()` sample used for the initial
horizontal velocity. -/
noncomputable def createBall (initialX initialY radiusM mass rand : ℝ) : Ball :=
  { x := initialX
    y := initialY
    radiusM := radiusM
    radius := radiusM * METER
    vx := (rand - 0.5) * 2
    vy := 0
    mass := mass }

/-- The per-ball update inside `updatePhysics(deltaTime, physicsState)`:
gravity, then per-axis quadratic drag with a 0.01 deadband, then the
position update converting m/s to pixels. -/
noncomputable def updatePhysicsBall (deltaTime : ℝ) (physicsState : PhysicsState)
    (ball : Ball) : Ball :=
  let m := ball.mass
  let g := physicsState.gravity
  let Cd := physicsState.drag
  let rho := FLUID_DENSITY
  let area := Real.pi * ball.radiusM ^ 2
  let vy1 := ball.vy + g * deltaTime
  let speedX := |ball.vx|
  let speedY := |vy1|
  let dragMagnitudeX := 0.5 * Cd * rho * area * speedX * speedX
  let dragMagnitudeY := 0.5 * Cd * rho * area * speedY * speedY
  let vx2 := if speedX > 0.01 then ball.vx - (mathSign ball.vx * dragMagnitudeX / m) * deltaTime else 0
  let vy2 := if speedY > 0.01 then vy1 - (mathSign vy1 * dragMagnitudeY / m) * deltaTime else 0
  { ball with
      vx := vx2
      vy := vy2
      x := ball.x + vx2 * deltaTime * METER
      y := ball.y + vy2 * deltaTime * METER }

/-- Embeds `updatePhysics` over the whole ball store (`balls.forEach`). -/
noncomputable def updatePhysics (deltaTime : ℝ) (physicsState : PhysicsState)
    (balls : List Ball) : List Ball :=
  balls.map (updatePhysicsBall deltaTime physicsState)

/-- Embeds `resolveBallCollision(b1, b2)` from the source: overlap test with the
degenerate `dist === 0` skip, separating-pair skip, impulse application and
half-overlap depenetration.  Returns the updated pair. -/
noncomputable def resolveBallCollision (b1 b2 : Ball) : Ball × Ball :=
  let dx := b2.x - b1.x
  let dy := b2.y - b1.y
  let dist := Real.sqrt (dx * dx + dy * dy)
  let minDistance := b1.radius + b2.radius
  if dist ≥ minDistance ∨ dist = 0 then (b1, b2)
  else
    let nx := dx / dist
    let ny := dy / dist
    let rvx := b2.vx - b1.vx
    let rvy := b2.vy - b1.vy
    let normalVel := rvx * nx + rvy * ny
    if normalVel > 0 then (b1, b2)
    else
      let e := RESTITUTION_BALL_BALL
      let impulseMagnitude := -(1 + e) * normalVel / (1 / b1.mass + 1 / b2.mass)
      let b1v := { b1 with
        vx := b1.vx - impulseMagnitude / b1.mass * nx
        vy := b1.vy - impulseMagnitude / b1.mass * ny }
      let b2v := { b2 with
        vx := b2.vx + impulseMagnitude / b2.mass * nx
        vy := b2.vy + impulseMagnitude / b2.mass * ny }
      let overlap := minDistance - dist
      let separationAmount := overlap / 2
      ({ b1v with
          x := b1v.x - separationAmount * nx
          y := b1v.y - separationAmount * ny },
       { b2v with
          x := b2v.x + separationAmount * nx
          y := b2v.y + separationAmount * ny })

/-- Applies `resolveBallCollision` to the pair at positions `i < j` of the
store, writing both results back (the in-place mutation of the source). -/
noncomputable def resolvePairAt (balls : List Ball) (i j : ℕ) : List Ball :=
  match balls[i]?, balls[j]? with
  | some bi, some bj =>
      let p := resolveBallCollision bi bj
      (balls.set i p.1).set j p.2
  | _, _ => balls

/-- Embeds `handleBallCollisions()`: the `i < j` double loop over all pairs. -/
noncomputable def handleBallCollisions (balls : List Ball) : List Ball :=
  (List.range balls.length).foldl
    (fun bs i => ((List.range balls.length).drop (i + 1)).foldl
      (fun bs2 j => resolvePairAt bs2 i j) bs)
    balls

/-- The per-ball update inside `handleWallCollisions(balls, physicsState)`:
the floor branch (clamp, bounce, floor friction, vertical deadband), then
the right wall, then the left wall.  The local `mass := max ball.mass 0.0001`
is computed but never used by the source, exactly as written there. -/
noncomputable def handleWallCollisionsBall (canvasBounds : CanvasBounds)
    (physicsState : PhysicsState) (ball : Ball) : Ball :=
  let b1 :=
    if ball.y + ball.radius > canvasBounds.height then
      let y2 := canvasBounds.height - ball.radius
      let vyBounced := ball.vy * -RESTITUTION_WALL_FLOOR
      let normalForce := ball.mass * physicsState.gravity
      let mass := max ball.mass 0.0001
      let frictionAcceleration := physicsState.friction * normalForce / ball.mass
      let vx2 :=
        if |ball.vx| > frictionAcceleration * physicsState.deltaTime then
          ball.vx - mathSign ball.vx * frictionAcceleration * physicsState.deltaTime
        else 0
      let vy2 := if |vyBounced| < 0.5 then 0 else vyBounced
      { ball with y := y2, vy := vy2, vx := vx2 }
    else ball
  let b2 :=
    if b1.x + b1.radius > canvasBounds.width then
      { b1 with x := canvasBounds.width - b1.radius, vx := b1.vx * -RESTITUTION_WALL_FLOOR }
    else b1
  if b2.x - b2.radius < 0 then
    { b2 with x := b2.radius, vx := b2.vx * -RESTITUTION_WALL_FLOOR }
  else b2

/-- Embeds `handleWallCollisions` over the whole ball store. -/
noncomputable def handleWallCollisions (canvasBounds : CanvasBounds)
    (physicsState : PhysicsState) (balls : List Ball) : List Ball :=
  balls.map (handleWallCollisionsBall canvasBounds physicsState)

/-- Embeds `spawnBall(config)`: append a freshly created ball to the store. -/
noncomputable def spawnBall (x y radiusM mass rand : ℝ) (balls : List Ball) : List Ball :=
  balls ++ [createBall x y radiusM mass rand]

/-- Embeds `clearAllBalls()`: empty the store. -/
def clearAllBalls : List Ball := []

/-- Center-to-center distance of two balls, as the source computes it. -/
noncomputable def ballDist (b1 b2 : Ball) : ℝ :=
  Real.sqrt ((b2.x - b1.x) * (b2.x - b1.x) + (b2.y - b1.y) * (b2.y - b1.y))

/-- X component of the unit collision normal from `b1` to `b2`. -/
noncomputable def normalX (b1 b2 : Ball) : ℝ := (b2.x - b1.x) / ballDist b1 b2

/-- Y component of the unit collision normal from `b1` to `b2`. -/
noncomputable def normalY (b1 b2 : Ball) : ℝ := (b2.y - b1.y) / ballDist b1 b2

/-- Relative velocity of `b2` with respect to `b1`, projected on the
collision normal (`normalVelocity` in the source). -/
noncomputable def normalVelocity (b1 b2 : Ball) : ℝ :=
  (b2.vx - b1.vx) * normalX b1 b2 + (b2.vy - b1.vy) * normalY b1 b2

/-- Relative velocity of the resolved pair, projected on the pre-collision
collision normal. -/
noncomputable def postNormalVelocity (b1 b2 : Ball) : ℝ :=
  ((resolveBallCollision b1 b2).2.vx - (resolveBallCollision b1 b2).1.vx) * normalX b1 b2 +
    ((resolveBallCollision b1 b2).2.vy - (resolveBallCollision b1 b2).1.vy) * normalY b1 b2

/-- The render radius is the physical radius times the fixed unit scale. -/
noncomputable def radiusInv (b : Ball) : Prop := b.radius = b.radiusM * METER

/-- The floor-friction update of the horizontal velocity, lines 150-154 of
the boundary pass, with `c = frictionAcceleration * deltaTime`. -/
noncomputable def floorFrictionStep (c vx : ℝ) : ℝ :=
  if |vx| > c then vx - mathSign vx * c else 0

/-- C1: one integrator invocation updates each ball in exactly this sequence:
vertical velocity increases by gravity*dt; then, per axis, the quadratic drag
magnitude 0.5*Cd*rho*(pi*radiusM^2)*|v|^2 is computed and the axis velocity is
decreased by sign(v)*drag/mass*dt, unless |v| ≤ 0.01 in which case the axis
velocity is set to exactly 0; then each position coordinate increases by the
post-drag axis velocity times dt times the unit scale 100. -/
theorem updatePhysics_exact_sequence (deltaTime : ℝ) (physicsState : PhysicsState)
    (balls : List Ball) (ball : Ball) :
    updatePhysics deltaTime physicsState balls =
      balls.map (updatePhysicsBall deltaTime physicsState) ∧
    updatePhysicsBall deltaTime physicsState ball =
      (let vyG := ball.vy + physicsState.gravity * deltaTime
       let dragX := 0.5 * physicsState.drag * 1.225 * (Real.pi * ball.radiusM ^ 2) * |ball.vx| ^ 2
       let dragY := 0.5 * physicsState.drag * 1.225 * (Real.pi * ball.radiusM ^ 2) * |vyG| ^ 2
       let vx2 := if |ball.vx| ≤ 0.01 then 0 else
         ball.vx - mathSign ball.vx * dragX / ball.mass * deltaTime
       let vy2 := if |vyG| ≤ 0.01 then 0 else
         vyG - mathSign vyG * dragY / ball.mass * deltaTime
       { ball with
           vx := vx2
           vy := vy2
           x := ball.x + vx2 * deltaTime * 100
           y := ball.y + vy2 * deltaTime * 100 }) := by
  refine ⟨rfl, ?_⟩
  simp only [updatePhysicsBall, FLUID_DENSITY, METER]
  split_ifs <;> first
    | (exfalso; linarith)
    | (congr 1 <;> ring)

/-- C10: the integrator per-axis deadband: whenever an axis velocity (for the
vertical axis, after the gravity update) has absolute value at most 0.01, the
integrator sets it to exactly 0, for every physics state — in particular even
when the drag coefficient is 0. -/
theorem updatePhysics_deadband (deltaTime : ℝ) (physicsState : PhysicsState)
    (ball : Ball) :
    (|ball.vx| ≤ 0.01 → (updatePhysicsBall deltaTime physicsState ball).vx = 0) ∧
    (|ball.vy + physicsState.gravity * deltaTime| ≤ 0.01 →
      (updatePhysicsBall deltaTime physicsState ball).vy = 0) := by
  constructor <;> intro h <;> simp [updatePhysicsBall, not_lt.2 h]

/-- C10 witness: a drag-free ball with horizontal velocity 0.005 is halted on
that axis by one integrator invocation. -/
theorem updatePhysics_deadband_witness :
    |(0.005 : ℝ)| ≤ 0.01 ∧
    (updatePhysicsBall 0.1 ⟨9.8, 0.5, 0, 0.1⟩ ⟨0, 0, 0.1, 10, 0.005, 0, 1⟩).vx = 0 :=
  ⟨by norm_num [abs_of_nonneg],
   (updatePhysics_deadband 0.1 ⟨9.8, 0.5, 0, 0.1⟩ ⟨0, 0, 0.1, 10, 0.005, 0, 1⟩).1
     (by norm_num [abs_of_nonneg])⟩

/-- C4: one call of the body-body resolver leaves both balls unchanged
whenever the pair is non-overlapping (d ≥ sum of render radii), exactly
coincident (d = 0), or separating (relative normal velocity > 0). -/
theorem resolveBallCollision_noop (b1 b2 : Ball)
    (h : ballDist b1 b2 ≥ b1.radius + b2.radius ∨ ballDist b1 b2 = 0 ∨
      normalVelocity b1 b2 > 0) :
    resolveBallCollision b1 b2 = (b1, b2) := by
  simp only [ballDist, normalVelocity, normalX, normalY] at h
  simp only [resolveBallCollision]
  rcases h with h | h | h
  · rw [if_pos (Or.inl h)]
  · rw [if_pos (Or.inr h)]
  · by_cases hc :
      Real.sqrt ((b2.x - b1.x) * (b2.x - b1.x) + (b2.y - b1.y) * (b2.y - b1.y)) ≥
          b1.radius + b2.radius ∨
        Real.sqrt ((b2.x - b1.x) * (b2.x - b1.x) + (b2.y - b1.y) * (b2.y - b1.y)) = 0
    · rw [if_pos hc]
    · rw [if_neg hc, if_pos h]

/-- C4 witness: a coincident (degenerate) pair is left untouched. -/
theorem resolveBallCollision_noop_witness :
    ballDist ⟨50, 50, 0.1, 10, 1, 0, 1⟩ ⟨50, 50, 0.1, 10, 0, 2, 1⟩ = 0 ∧
    resolveBallCollision ⟨50, 50, 0.1, 10, 1, 0, 1⟩ ⟨50, 50, 0.1, 10, 0, 2, 1⟩ =
      (⟨50, 50, 0.1, 10, 1, 0, 1⟩, ⟨50, 50, 0.1, 10, 0, 2, 1⟩) :=
  ⟨by norm_num [ballDist],
   resolveBallCollision_noop _ _ (Or.inr (Or.inl (by norm_num [ballDist])))⟩

/-- Impulse terms applied with opposite signs through each mass cancel in the
mass-weighted sum. -/
lemma momentum_cancel (m1 m2 v1 v2 J n : ℝ) (h1 : m1 ≠ 0) (h2 : m2 ≠ 0) :
    m1 * (v1 - J / m1 * n) + m2 * (v2 + J / m2 * n) = m1 * v1 + m2 * v2 := by
  field_simp
  ring

/-- C3: one call of the body-body resolver conserves total momentum
componentwise, for every pair of balls of positive mass. -/
theorem resolveBallCollision_momentum (b1 b2 : Ball)
    (h1 : 0 < b1.mass) (h2 : 0 < b2.mass) :
    (resolveBallCollision b1 b2).1.mass * (resolveBallCollision b1 b2).1.vx +
        (resolveBallCollision b1 b2).2.mass * (resolveBallCollision b1 b2).2.vx =
      b1.mass * b1.vx + b2.mass * b2.vx ∧
    (resolveBallCollision b1 b2).1.mass * (resolveBallCollision b1 b2).1.vy +
        (resolveBallCollision b1 b2).2.mass * (resolveBallCollision b1 b2).2.vy =
      b1.mass * b1.vy + b2.mass * b2.vy := by
  simp only [resolveBallCollision]
  split_ifs with hc hv
  · exact ⟨rfl, rfl⟩
  · exact ⟨rfl, rfl⟩
  · exact ⟨momentum_cancel _ _ _ _ _ _ h1.ne' h2.ne',
      momentum_cancel _ _ _ _ _ _ h1.ne' h2.ne'⟩

/-- C3 witness: momentum is conserved on a concrete overlapping pair. -/
theorem resolveBallCollision_momentum_witness :
    (0 : ℝ) < 1 ∧
    ((resolveBallCollision ⟨0, 0, 0.1, 10, 1, 0, 1⟩ ⟨15, 0, 0.1, 10, -1, 0, 1⟩).1.mass *
          (resolveBallCollision ⟨0, 0, 0.1, 10, 1, 0, 1⟩ ⟨15, 0, 0.1, 10, -1, 0, 1⟩).1.vx +
        (resolveBallCollision ⟨0, 0, 0.1, 10, 1, 0, 1⟩ ⟨15, 0, 0.1, 10, -1, 0, 1⟩).2.mass *
          (resolveBallCollision ⟨0, 0, 0.1, 10, 1, 0, 1⟩ ⟨15, 0, 0.1, 10, -1, 0, 1⟩).2.vx =
      (1 : ℝ) * 1 + 1 * -1 ∧
    (resolveBallCollision ⟨0, 0, 0.1, 10, 1, 0, 1⟩ ⟨15, 0, 0.1, 10, -1, 0, 1⟩).1.mass *
          (resolveBallCollision ⟨0, 0, 0.1, 10, 1, 0, 1⟩ ⟨15, 0, 0.1, 10, -1, 0, 1⟩).1.vy +
        (resolveBallCollision ⟨0, 0, 0.1, 10, 1, 0, 1⟩ ⟨15, 0, 0.1, 10, -1, 0, 1⟩).2.mass *
          (resolveBallCollision ⟨0, 0, 0.1, 10, 1, 0, 1⟩ ⟨15, 0, 0.1, 10, -1, 0, 1⟩).2.vy =
      (1 : ℝ) * 0 + 1 * 0) :=
  ⟨by norm_num,
   resolveBallCollision_momentum ⟨0, 0, 0.1, 10, 1, 0, 1⟩ ⟨15, 0, 0.1, 10, -1, 0, 1⟩
     (by norm_num) (by norm_num)⟩

/-- The square root of 225 is 15. -/
lemma sqrt_225 : Real.sqrt 225 = 15 := by
  rw [show (225 : ℝ) = 15 ^ 2 by norm_num]
  exact Real.sqrt_sq (by norm_num)

/-- The square root of 400 is 20. -/
lemma sqrt_400 : Real.sqrt 400 = 20 := by
  rw [show (400 : ℝ) = 20 ^ 2 by norm_num]
  exact Real.sqrt_sq (by norm_num)

/-- The concrete overlapping pair of scenario A of the spec is 15 apart. -/
lemma ballDist_scenarioA :
    ballDist ⟨0, 0, 0.1, 10, 1, 0, 1⟩ ⟨15, 0, 0.1, 10, -1, 0, 1⟩ = 15 := by
  simp only [ballDist]
  norm_num [sqrt_225]

/-- The concrete pair of scenario A of the spec approaches at speed 2. -/
lemma normalVelocity_scenarioA :
    normalVelocity ⟨0, 0, 0.1, 10, 1, 0, 1⟩ ⟨15, 0, 0.1, 10, -1, 0, 1⟩ = -2 := by
  simp only [normalVelocity, normalX, normalY, ballDist_scenarioA]
  norm_num

/-- C5: for an approaching overlapping pair of positive masses, the relative
speed along the pre-collision normal after one resolver call is at most the
ball-ball restitution constant times its value before the call. -/
theorem resolveBallCollision_restitution (b1 b2 : Ball)
    (h1 : 0 < b1.mass) (h2 : 0 < b2.mass)
    (hd0 : 0 < ballDist b1 b2)
    (hd : ballDist b1 b2 < b1.radius + b2.radius)
    (hvn : normalVelocity b1 b2 < 0) :
    |postNormalVelocity b1 b2| ≤ RESTITUTION_BALL_BALL * |normalVelocity b1 b2| := by
  have hS : 0 < (b2.x - b1.x) * (b2.x - b1.x) + (b2.y - b1.y) * (b2.y - b1.y) := by
    have h := hd0
    simp only [ballDist] at h
    exact Real.sqrt_pos.mp h
  have hm1 : b1.mass ≠ 0 := h1.ne'
  have hm2 : b2.mass ≠ 0 := h2.ne'
  have hm12 : b2.mass + b1.mass ≠ 0 := by positivity
  have hm21 : b1.mass + b2.mass ≠ 0 := by positivity
  have hpost : postNormalVelocity b1 b2 =
      -RESTITUTION_BALL_BALL * normalVelocity b1 b2 := by
    have hc1 : ¬(ballDist b1 b2 ≥ b1.radius + b2.radius ∨ ballDist b1 b2 = 0) := by
      push_neg
      exact ⟨hd, ne_of_gt hd0⟩
    have hc2 : ¬(normalVelocity b1 b2 > 0) := not_lt.mpr hvn.le
    simp only [ballDist] at hc1
    simp only [normalVelocity, normalX, normalY, ballDist] at hc2
    simp only [postNormalVelocity, resolveBallCollision, normalVelocity, normalX,
      normalY, ballDist]
    simp only [if_neg hc1, if_neg hc2]
    set d := Real.sqrt ((b2.x - b1.x) * (b2.x - b1.x) + (b2.y - b1.y) * (b2.y - b1.y))
      with hdDef
    have hdd : d * d =
        (b2.x - b1.x) * (b2.x - b1.x) + (b2.y - b1.y) * (b2.y - b1.y) := by
      rw [hdDef]
      exact Real.mul_self_sqrt hS.le
    set NX := (b2.x - b1.x) / d with hNX
    set NY := (b2.y - b1.y) / d with hNY
    have hNN : NX * NX + NY * NY = 1 := by
      rw [hNX, hNY, div_mul_div_comm, div_mul_div_comm, div_add_div_same, hdd]
      exact div_self (ne_of_gt hS)
    set V := (b2.vx - b1.vx) * NX + (b2.vy - b1.vy) * NY with hV
    set J := -(1 + RESTITUTION_BALL_BALL) * V / (1 / b1.mass + 1 / b2.mass) with hJ
    have hJsum : J / b1.mass + J / b2.mass = -(1 + RESTITUTION_BALL_BALL) * V := by
      rw [hJ]
      field_simp
      ring
    have expand : (b2.vx + J / b2.mass * NX - (b1.vx - J / b1.mass * NX)) * NX +
        (b2.vy + J / b2.mass * NY - (b1.vy - J / b1.mass * NY)) * NY
        = V + (J / b1.mass + J / b2.mass) * (NX * NX + NY * NY) := by
      rw [hV]
      ring
    rw [expand, hNN, mul_one, hJsum]
    ring
  rw [hpost, abs_mul, abs_neg,
    abs_of_nonneg (by norm_num [RESTITUTION_BALL_BALL] : (0 : ℝ) ≤ RESTITUTION_BALL_BALL)]

/-- C5 witness: the restitution bound holds on scenario A of the spec pair. -/
theorem resolveBallCollision_restitution_witness :
    (0 : ℝ) < ballDist ⟨0, 0, 0.1, 10, 1, 0, 1⟩ ⟨15, 0, 0.1, 10, -1, 0, 1⟩ ∧
    |postNormalVelocity ⟨0, 0, 0.1, 10, 1, 0, 1⟩ ⟨15, 0, 0.1, 10, -1, 0, 1⟩| ≤
      RESTITUTION_BALL_BALL *
        |normalVelocity ⟨0, 0, 0.1, 10, 1, 0, 1⟩ ⟨15, 0, 0.1, 10, -1, 0, 1⟩| :=
  ⟨by rw [ballDist_scenarioA]; norm_num,
   resolveBallCollision_restitution ⟨0, 0, 0.1, 10, 1, 0, 1⟩ ⟨15, 0, 0.1, 10, -1, 0, 1⟩
     (by norm_num) (by norm_num)
     (by rw [ballDist_scenarioA]; norm_num)
     (by rw [ballDist_scenarioA]; norm_num)
     (by rw [normalVelocity_scenarioA]; norm_num)⟩

/-- C2: scenario A of the spec, exactly: equal masses 1, render radii 10,
centers 15 apart on the x-axis, velocities (+1,0) and (-1,0): one resolver
call yields velocities (-0.9,0) and (0.9,0), positions -2.5 and 17.5, and the
centers end up exactly 20 apart. -/
theorem resolveBallCollision_scenarioA :
    resolveBallCollision ⟨0, 0, 0.1, 10, 1, 0, 1⟩ ⟨15, 0, 0.1, 10, -1, 0, 1⟩ =
      (⟨-2.5, 0, 0.1, 10, -0.9, 0, 1⟩, ⟨17.5, 0, 0.1, 10, 0.9, 0, 1⟩) ∧
    ballDist ⟨-2.5, 0, 0.1, 10, -0.9, 0, 1⟩ ⟨17.5, 0, 0.1, 10, 0.9, 0, 1⟩ = 20 := by
  constructor
  · simp only [resolveBallCollision, RESTITUTION_BALL_BALL]
    norm_num [sqrt_225, Prod.mk.injEq, Ball.mk.injEq]
  · simp only [ballDist]
    norm_num [sqrt_400]

/-- When the floor branch does not fire, the boundary pass leaves the vertical
state of a ball untouched (wall branches only modify x and vx). -/
lemma wallPass_no_floor (canvasBounds : CanvasBounds) (physicsState : PhysicsState)
    (b : Ball) (h : ¬(b.y + b.radius > canvasBounds.height)) :
    (handleWallCollisionsBall canvasBounds physicsState b).vy = b.vy ∧
    (handleWallCollisionsBall canvasBounds physicsState b).y = b.y := by
  simp only [handleWallCollisionsBall]
  simp only [if_neg h]
  split_ifs <;> exact ⟨rfl, rfl⟩

/-- When the floor branch fires and the bounced vertical speed is inside the
0.5 deadband, the boundary pass clamps y and zeroes vy. -/
lemma wallPass_floor_deadband (canvasBounds : CanvasBounds) (physicsState : PhysicsState)
    (b : Ball) (hfloor : b.y + b.radius > canvasBounds.height)
    (hvy : |b.vy * -RESTITUTION_WALL_FLOOR| < 0.5) :
    (handleWallCollisionsBall canvasBounds physicsState b).vy = 0 ∧
    (handleWallCollisionsBall canvasBounds physicsState b).y =
      canvasBounds.height - b.radius := by
  simp only [handleWallCollisionsBall]
  simp only [if_pos hfloor, if_pos hvy]
  split_ifs <;> exact ⟨rfl, rfl⟩

/-- The boundary pass never writes the render radius. -/
lemma wallPass_radius (canvasBounds : CanvasBounds) (physicsState : PhysicsState)
    (b : Ball) : (handleWallCollisionsBall canvasBounds physicsState b).radius = b.radius := by
  simp only [handleWallCollisionsBall]
  split_ifs <;> rfl

/-- C7 counterexample: a ball resting exactly on the floor
(y = boundsHeight - radius = 100 - 10) with |vy| = 0.3 < 0.5 is NOT snapped to
vy = 0 by one boundary pass — the floor branch requires strict penetration, so
the pass leaves vy = 0.3. -/
theorem wall_deadband_resting_counterexample :
    (⟨50, 90, 0.1, 10, 0, 0.3, 1⟩ : Ball).y = (100 : ℝ) - 10 ∧
    |(⟨50, 90, 0.1, 10, 0, 0.3, 1⟩ : Ball).vy| < 0.5 ∧
    (handleWallCollisionsBall ⟨200, 100⟩ ⟨9.8, 0.5, 0, 0.1⟩
      ⟨50, 90, 0.1, 10, 0, 0.3, 1⟩).vy = 0.3 ∧
    (0.3 : ℝ) ≠ 0 := by
  refine ⟨by norm_num, by norm_num [abs_of_nonneg], ?_, by norm_num⟩
  norm_num [handleWallCollisionsBall]

/-- C7 amended: for a ball strictly penetrating the floor whose bounced
vertical speed |vy * -0.7| is below the 0.5 deadband, one boundary pass gives
vy = 0 and y = boundsHeight - radius, and a second pass leaves both unchanged
(a ball resting exactly on the floor is outside the floor branch, so the pass
is idempotent on the resting state). -/
theorem wall_floor_deadband_amended (canvasBounds : CanvasBounds)
    (physicsState : PhysicsState) (b : Ball)
    (hfloor : b.y + b.radius > canvasBounds.height)
    (hvy : |b.vy * -RESTITUTION_WALL_FLOOR| < 0.5) :
    (handleWallCollisionsBall canvasBounds physicsState b).vy = 0 ∧
    (handleWallCollisionsBall canvasBounds physicsState b).y =
      canvasBounds.height - b.radius ∧
    (handleWallCollisionsBall canvasBounds physicsState
      (handleWallCollisionsBall canvasBounds physicsState b)).vy = 0 ∧
    (handleWallCollisionsBall canvasBounds physicsState
      (handleWallCollisionsBall canvasBounds physicsState b)).y =
      canvasBounds.height - b.radius := by
  obtain ⟨h1, h2⟩ := wallPass_floor_deadband canvasBounds physicsState b hfloor hvy
  have hr := wallPass_radius canvasBounds physicsState b
  have hnf : ¬((handleWallCollisionsBall canvasBounds physicsState b).y +
      (handleWallCollisionsBall canvasBounds physicsState b).radius >
        canvasBounds.height) := by
    rw [h2, hr]
    intro hcon
    linarith
  obtain ⟨h3, h4⟩ := wallPass_no_floor canvasBounds physicsState _ hnf
  exact ⟨h1, h2, by rw [h3, h1], by rw [h4, h2]⟩

/-- C7 amended witness: a concrete ball 5 below the floor surface with
vy = 0.3 is clamped and zeroed by the first pass and untouched by the second. -/
theorem wall_floor_deadband_amended_witness :
    ((⟨50, 95, 0.1, 10, 0, 0.3, 1⟩ : Ball).y + (⟨50, 95, 0.1, 10, 0, 0.3, 1⟩ : Ball).radius >
      (⟨200, 100⟩ : CanvasBounds).height) ∧
    ((handleWallCollisionsBall ⟨200, 100⟩ ⟨9.8, 0.5, 0, 0.1⟩
        ⟨50, 95, 0.1, 10, 0, 0.3, 1⟩).vy = 0 ∧
      (handleWallCollisionsBall ⟨200, 100⟩ ⟨9.8, 0.5, 0, 0.1⟩
        ⟨50, 95, 0.1, 10, 0, 0.3, 1⟩).y =
        (⟨200, 100⟩ : CanvasBounds).height - (⟨50, 95, 0.1, 10, 0, 0.3, 1⟩ : Ball).radius ∧
      (handleWallCollisionsBall ⟨200, 100⟩ ⟨9.8, 0.5, 0, 0.1⟩
        (handleWallCollisionsBall ⟨200, 100⟩ ⟨9.8, 0.5, 0, 0.1⟩
          ⟨50, 95, 0.1, 10, 0, 0.3, 1⟩)).vy = 0 ∧
      (handleWallCollisionsBall ⟨200, 100⟩ ⟨9.8, 0.5, 0, 0.1⟩
        (handleWallCollisionsBall ⟨200, 100⟩ ⟨9.8, 0.5, 0, 0.1⟩
          ⟨50, 95, 0.1, 10, 0, 0.3, 1⟩)).y =
        (⟨200, 100⟩ : CanvasBounds).height - (⟨50, 95, 0.1, 10, 0, 0.3, 1⟩ : Ball).radius) :=
  ⟨by norm_num,
   wall_floor_deadband_amended ⟨200, 100⟩ ⟨9.8, 0.5, 0, 0.1⟩ ⟨50, 95, 0.1, 10, 0, 0.3, 1⟩
     (by norm_num) (by norm_num [RESTITUTION_WALL_FLOOR, abs_of_nonpos])⟩

/-- C6: in the boundary-pass floor friction, the divisor is the raw ball mass,
not the guarded `max mass 0.0001`: for a ball of mass 0.00005 (below the
floor value) the mass cancels and the per-pass deceleration is exactly
friction*gravity*dt, which differs from what the guarded divisor would give. -/
theorem floor_friction_divisor_unguarded :
    (handleWallCollisionsBall ⟨200, 100⟩ ⟨9.8, 0.5, 0, 0.1⟩
        ⟨50, 95, 0.1, 10, 10, 0, 0.00005⟩).vx = 10 - 0.5 * 9.8 * 0.1 ∧
    (10 : ℝ) - 0.5 * 9.8 * 0.1 ≠
      10 - 0.5 * ((0.00005 : ℝ) * 9.8) / max (0.00005 : ℝ) 0.0001 * 0.1 := by
  constructor
  · norm_num [handleWallCollisionsBall, RESTITUTION_WALL_FLOOR, mathSign, abs_of_nonneg]
  · rw [max_eq_right (by norm_num : (0.00005 : ℝ) ≤ 0.0001)]
    norm_num

/-- Math.sign of a positive number is 1. -/
lemma mathSign_pos {x : ℝ} (h : 0 < x) : mathSign x = 1 := by
  simp [mathSign, h]

/-- One friction step keeps a nonnegative horizontal speed nonnegative. -/
lemma floorFrictionStep_nonneg {c v : ℝ} (hc : 0 < c) (hv : 0 ≤ v) :
    0 ≤ floorFrictionStep c v := by
  unfold floorFrictionStep
  split_ifs with h
  · have hvc : c < v := by rwa [abs_of_nonneg hv] at h
    rw [mathSign_pos (hc.trans hvc)]
    linarith
  · exact le_refl 0

/-- One friction step never increases a nonnegative horizontal speed. -/
lemma floorFrictionStep_le {c v : ℝ} (hc : 0 < c) (hv : 0 ≤ v) :
    floorFrictionStep c v ≤ v := by
  unfold floorFrictionStep
  split_ifs with h
  · have hvc : c < v := by rwa [abs_of_nonneg hv] at h
    rw [mathSign_pos (hc.trans hvc)]
    linarith
  · exact hv

/-- Iterated friction steps keep a nonnegative speed nonnegative. -/
lemma floorFrictionStep_iter_nonneg (c : ℝ) (hc : 0 < c) :
    ∀ (n : ℕ) (v : ℝ), 0 ≤ v → 0 ≤ (floorFrictionStep c)^[n] v := by
  intro n
  induction n with
  | zero => intro v hv; simpa using hv
  | succ n ih =>
      intro v hv
      rw [Function.iterate_succ_apply]
      exact ih _ (floorFrictionStep_nonneg hc hv)

/-- The iterated friction speeds are non-increasing. -/
lemma floorFrictionStep_iter_mono (c : ℝ) (hc : 0 < c) (v : ℝ) (hv : 0 ≤ v) (n : ℕ) :
    (floorFrictionStep c)^[n + 1] v ≤ (floorFrictionStep c)^[n] v := by
  rw [Function.iterate_succ_apply']
  exact floorFrictionStep_le hc (floorFrictionStep_iter_nonneg c hc n v hv)

/-- After enough friction steps (n*c ≥ v) the speed is snapped to exactly 0. -/
lemma floorFrictionStep_iter_zero (c : ℝ) (hc : 0 < c) :
    ∀ (n : ℕ) (v : ℝ), 0 ≤ v → v ≤ n * c → (floorFrictionStep c)^[n] v = 0 := by
  intro n
  induction n with
  | zero =>
      intro v hv hle
      simp only [Nat.cast_zero, zero_mul] at hle
      simpa using le_antisymm hle hv
  | succ n ih =>
      intro v hv hle
      rw [Function.iterate_succ_apply]
      by_cases h : |v| > c
      · have hvc : c < v := by rwa [abs_of_nonneg hv] at h
        have hstep : floorFrictionStep c v = v - c := by
          unfold floorFrictionStep
          rw [if_pos h, mathSign_pos (hc.trans hvc)]
          ring
        rw [hstep]
        refine ih _ (by linarith) ?_
        push_cast at hle ⊢
        linarith
      · have hstep : floorFrictionStep c v = 0 := by
          unfold floorFrictionStep
          rw [if_neg h]
        rw [hstep]
        exact ih 0 le_rfl (by positivity)

/-- C8: on a floor-penetrating ball away from the side walls with gravity 9.8
and friction 0.5, the boundary pass updates vx by the friction step with
per-pass deceleration 4.9*dt; iterating that step from vx = 5 the speed stays
nonnegative, is non-increasing, and after finitely many steps is exactly 0. -/
theorem floor_friction_scenarioC (canvasBounds : CanvasBounds) (Cd dt : ℝ) (b : Ball)
    (hm : 0 < b.mass) (hdt : 0 < dt)
    (hfloor : b.y + b.radius > canvasBounds.height)
    (hxr : ¬(b.x + b.radius > canvasBounds.width))
    (hxl : ¬(b.x - b.radius < 0)) :
    (handleWallCollisionsBall canvasBounds ⟨9.8, 0.5, Cd, dt⟩ b).vx =
      floorFrictionStep (4.9 * dt) b.vx ∧
    (∀ n : ℕ, 0 ≤ (floorFrictionStep (4.9 * dt))^[n] 5) ∧
    (∀ n : ℕ,
      (floorFrictionStep (4.9 * dt))^[n + 1] 5 ≤ (floorFrictionStep (4.9 * dt))^[n] 5) ∧
    ∃ N : ℕ, ∀ n : ℕ, N ≤ n → (floorFrictionStep (4.9 * dt))^[n] 5 = 0 := by
  have hc : (0 : ℝ) < 4.9 * dt := by positivity
  refine ⟨?_, fun n => floorFrictionStep_iter_nonneg _ hc n 5 (by norm_num),
    fun n => floorFrictionStep_iter_mono _ hc 5 (by norm_num) n, ?_⟩
  · have hfa : (0.5 : ℝ) * (b.mass * 9.8) / b.mass = 4.9 := by
      field_simp
      ring
    simp only [handleWallCollisionsBall]
    simp only [if_pos hfloor]
    rw [hfa]
    simp only [if_neg hxr, if_neg hxl]
    simp only [floorFrictionStep]
    split_ifs with h
    · ring
    · rfl
  · refine ⟨⌈(5 : ℝ) / (4.9 * dt)⌉₊, fun n hn => ?_⟩
    refine floorFrictionStep_iter_zero _ hc n 5 (by norm_num) ?_
    have h1 : (5 : ℝ) / (4.9 * dt) ≤ (⌈(5 : ℝ) / (4.9 * dt)⌉₊ : ℝ) := Nat.le_ceil _
    have h2 : ((⌈(5 : ℝ) / (4.9 * dt)⌉₊ : ℕ) : ℝ) ≤ (n : ℝ) := Nat.cast_le.mpr hn
    have h3 := (div_le_iff₀ hc).mp (h1.trans h2)
    linarith

/-- C8 witness: the scenario instantiated with a concrete ball (vx = 5, on the
floor, away from the walls) and dt = 0.1. -/
theorem floor_friction_scenarioC_witness :
    (0 : ℝ) < (⟨50, 95, 0.1, 10, 5, 0, 1⟩ : Ball).mass ∧
    ((handleWallCollisionsBall ⟨200, 100⟩ ⟨9.8, 0.5, 0, 0.1⟩
        ⟨50, 95, 0.1, 10, 5, 0, 1⟩).vx =
      floorFrictionStep (4.9 * 0.1) (⟨50, 95, 0.1, 10, 5, 0, 1⟩ : Ball).vx ∧
    (∀ n : ℕ, 0 ≤ (floorFrictionStep (4.9 * 0.1))^[n] 5) ∧
    (∀ n : ℕ,
      (floorFrictionStep (4.9 * 0.1))^[n + 1] 5 ≤ (floorFrictionStep (4.9 * 0.1))^[n] 5) ∧
    ∃ N : ℕ, ∀ n : ℕ, N ≤ n → (floorFrictionStep (4.9 * 0.1))^[n] 5 = 0) :=
  ⟨by norm_num,
   floor_friction_scenarioC ⟨200, 100⟩ 0 0.1 ⟨50, 95, 0.1, 10, 5, 0, 1⟩
     (by norm_num) (by norm_num) (by norm_num) (by norm_num) (by norm_num)⟩

/-- The integrator never writes either radius field. -/
lemma updatePhysicsBall_radius (deltaTime : ℝ) (physicsState : PhysicsState) (b : Ball) :
    (updatePhysicsBall deltaTime physicsState b).radius = b.radius ∧
    (updatePhysicsBall deltaTime physicsState b).radiusM = b.radiusM :=
  ⟨rfl, rfl⟩

/-- The body-body resolver never writes either radius field of either ball. -/
lemma resolveBallCollision_radius (b1 b2 : Ball) :
    ((resolveBallCollision b1 b2).1.radius = b1.radius ∧
      (resolveBallCollision b1 b2).1.radiusM = b1.radiusM) ∧
    ((resolveBallCollision b1 b2).2.radius = b2.radius ∧
      (resolveBallCollision b1 b2).2.radiusM = b2.radiusM) := by
  simp only [resolveBallCollision]
  split_ifs <;> exact ⟨⟨rfl, rfl⟩, ⟨rfl, rfl⟩⟩

/-- The boundary pass never writes the physical radius. -/
lemma wallPass_radiusM (canvasBounds : CanvasBounds) (physicsState : PhysicsState)
    (b : Ball) :
    (handleWallCollisionsBall canvasBounds physicsState b).radiusM = b.radiusM := by
  simp only [handleWallCollisionsBall]
  split_ifs <;> rfl

/-- A fold preserves any property preserved by each of its steps. -/
lemma foldl_preserves {β : Type} (P : List Ball → Prop) (f : List Ball → β → List Ball)
    (hf : ∀ bs x, P bs → P (f bs x)) :
    ∀ (l : List β) (bs : List Ball), P bs → P (l.foldl f bs) := by
  intro l
  induction l with
  | nil => intro bs h; exact h
  | cons a t ih => intro bs h; exact ih (f bs a) (hf bs a h)

/-- Resolving one pair in place preserves the radius invariant of the store. -/
lemma resolvePairAt_preserves (bs : List Ball) (i j : ℕ)
    (h : ∀ b ∈ bs, radiusInv b) : ∀ b ∈ resolvePairAt bs i j, radiusInv b := by
  unfold resolvePairAt
  rcases hbi : bs[i]? with _ | bi
  · exact h
  · rcases hbj : bs[j]? with _ | bj
    · exact h
    · intro b hb
      have hbi2 : bi ∈ bs := List.getElem?_mem hbi
      have hbj2 : bj ∈ bs := List.getElem?_mem hbj
      rcases List.mem_or_eq_of_mem_set hb with hb2 | rfl
      · rcases List.mem_or_eq_of_mem_set hb2 with hb3 | rfl
        · exact h b hb3
        · have hrr := (resolveBallCollision_radius bi bj).1
          unfold radiusInv
          rw [hrr.1, hrr.2]
          exact h bi hbi2
      · have hrr := (resolveBallCollision_radius bi bj).2
        unfold radiusInv
        rw [hrr.1, hrr.2]
        exact h bj hbj2

/-- The whole pairwise collision pass preserves the radius invariant. -/
lemma handleBallCollisions_preserves (bs : List Ball)
    (h : ∀ b ∈ bs, radiusInv b) : ∀ b ∈ handleBallCollisions bs, radiusInv b := by
  unfold handleBallCollisions
  refine foldl_preserves (fun l => ∀ b ∈ l, radiusInv b) _ ?_ _ bs h
  intro bs2 i h2
  exact foldl_preserves (fun l => ∀ b ∈ l, radiusInv b) _
    (fun bs3 j h3 => resolvePairAt_preserves bs3 i j h3) _ bs2 h2

/-- C9: the invariant radiusRender = radiusPhysical * 100 holds for every
freshly created ball and is preserved by the integrator, the body-body
collision pass, the boundary pass, spawn and clear: no operation writes
either radius field independently. -/
theorem radius_invariant_operations
    (x y rM m rand deltaTime : ℝ) (physicsState : PhysicsState)
    (canvasBounds : CanvasBounds) (balls : List Ball)
    (h : ∀ b ∈ balls, radiusInv b) :
    radiusInv (createBall x y rM m rand) ∧
    (∀ b ∈ updatePhysics deltaTime physicsState balls, radiusInv b) ∧
    (∀ b ∈ handleBallCollisions balls, radiusInv b) ∧
    (∀ b ∈ handleWallCollisions canvasBounds physicsState balls, radiusInv b) ∧
    (∀ b ∈ spawnBall x y rM m rand balls, radiusInv b) ∧
    (∀ b ∈ clearAllBalls, radiusInv b) := by
  refine ⟨rfl, ?_, handleBallCollisions_preserves balls h, ?_, ?_, by simp [clearAllBalls]⟩
  · intro b hb
    obtain ⟨a, ha, rfl⟩ := List.mem_map.mp hb
    have hrr := updatePhysicsBall_radius deltaTime physicsState a
    unfold radiusInv
    rw [hrr.1, hrr.2]
    exact h a ha
  · intro b hb
    obtain ⟨a, ha, rfl⟩ := List.mem_map.mp hb
    unfold radiusInv
    rw [wallPass_radius canvasBounds physicsState a, wallPass_radiusM canvasBounds physicsState a]
    exact h a ha
  · intro b hb
    rcases List.mem_append.mp hb with hb2 | hb2
    · exact h b hb2
    · rw [List.mem_singleton.mp hb2]
      exact rfl

/-- C9 witness: the invariant theorem applied to a concrete singleton store. -/
theorem radius_invariant_operations_witness :
    (∀ b ∈ ([⟨0, 0, 0.1, 10, 0, 0, 1⟩] : List Ball), radiusInv b) ∧
    (radiusInv (createBall 1 2 0.1 1 0.5) ∧
    (∀ b ∈ updatePhysics 0.1 ⟨9.8, 0.5, 0, 0.1⟩ ([⟨0, 0, 0.1, 10, 0, 0, 1⟩] : List Ball),
      radiusInv b) ∧
    (∀ b ∈ handleBallCollisions ([⟨0, 0, 0.1, 10, 0, 0, 1⟩] : List Ball), radiusInv b) ∧
    (∀ b ∈ handleWallCollisions ⟨200, 100⟩ ⟨9.8, 0.5, 0, 0.1⟩
        ([⟨0, 0, 0.1, 10, 0, 0, 1⟩] : List Ball), radiusInv b) ∧
    (∀ b ∈ spawnBall 1 2 0.1 1 0.5 ([⟨0, 0, 0.1, 10, 0, 0, 1⟩] : List Ball), radiusInv b) ∧
    (∀ b ∈ clearAllBalls, radiusInv b)) :=
  ⟨by
    intro b hb
    rw [List.mem_singleton.mp hb]
    show (10 : ℝ) = 0.1 * METER
    norm_num [METER],
   radius_invariant_operations 1 2 0.1 1 0.5 0.1 ⟨9.8, 0.5, 0, 0.1⟩ ⟨200, 100⟩
     ([⟨0, 0, 0.1, 10, 0, 0, 1⟩] : List Ball)
     (by
       intro b hb
       rw [List.mem_singleton.mp hb]
       show (10 : ℝ) = 0.1 * METER
       norm_num [METER])⟩
